import Mathlib

/-!
# Verification of the TikTok Clips Bot dispatch coordinator

Shallow embedding of `src/bot/app.py` (Flask webhook server with hybrid
local/GitHub-Actions job dispatch).  The mutable module-level dictionaries
`job_queue` and `user_sessions` are modelled as association lists that are
threaded through every handler; outbound side effects (Telegram
`send_message` calls and GitHub `repository_dispatch` POSTs) are collected
in an explicit `Effects` record; the answers of the external world (whether
GitHub is configured, which HTTP status the dispatch POST returns) are
passed in as parameters.  Job fields keep the string values the Python code
uses (`"pending"`, `"processing"`, `"local"`, `"github"`, ...); the
`remote` processor of the spec is the code value `"github"`, the
`remote_triggered` flag of the spec is the code key `github_triggered`,
and the spec mode names `local_only` / `remote_only` / `auto` are the
code `processor_choice` values `"local"` / `"cloud"` / `"auto"`.
Timestamps are naturals (one millisecond clock parameter stands for the
Python `time.time()` readings; no claim depends on the unit).
-/

namespace TikTokBot

/-- One entry of `job_queue`, exactly the dict built by `create_job`
(app.py lines 83..97) plus the keys added later by the handlers
(`processor_choice`, `claimed_at`, `completed_at`). -/
structure Job where
  job_id : String
  chat_id : String
  youtube_url : String
  num_clips : Nat
  clip_duration : Nat
  status : String
  created_at : Nat
  processor : Option String
  github_triggered : Bool
  processor_choice : Option String
  claimed_at : Option Nat
  completed_at : Option Nat
deriving Repr, DecidableEq, Inhabited

/-- Model of the module-level dict `job_queue` (job_id -> job). -/
abbrev JobQueue := List (String × Job)

/-- Model of dict lookup `job_queue[job_id]` and of membership
`job_id in job_queue`. -/
def lookupJob : JobQueue → String → Option Job
  | [], _ => none
  | (k, j) :: rest, id => if k = id then some j else lookupJob rest id

/-- Model of dict assignment `job_queue[job_id] = job` (overwrites an
existing key, otherwise appends, like a Python dict). -/
def setJob : JobQueue → String → Job → JobQueue
  | [], id, j => [(id, j)]
  | (k, j0) :: rest, id, j =>
    if k = id then (id, j) :: rest else (k, j0) :: setJob rest id j

/-- Outbound side effects of one handler run: `messages` records each
`send_message(chat_id, text)` call in order, `dispatches` records the job
passed to each `trigger_github_action` call in order. -/
structure Effects where
  messages : List (String × String)
  dispatches : List Job
deriving Repr, DecidableEq

def Effects.empty : Effects := ⟨[], []⟩

def Effects.app (e₁ e₂ : Effects) : Effects :=
  ⟨e₁.messages ++ e₂.messages, e₁.dispatches ++ e₂.dispatches⟩

/-- Environment answer to one `trigger_github_action` call: whether
`GITHUB_TOKEN` and `GITHUB_REPO` are configured, and the HTTP status the
dispatch POST returns when they are. -/
structure GHEnv where
  configured : Bool
  respStatus : Nat
deriving Repr, DecidableEq

/-- Model of `trigger_github_action` (app.py lines 100..126): returns
`(False, "GitHub not configured")` without posting when unconfigured;
otherwise the POST succeeds exactly on HTTP 204. -/
def trigger_github_action (gh : GHEnv) (_job_data : Job) : Bool × String :=
  if gh.configured = false then (false, "GitHub not configured")
  else if gh.respStatus = 204 then (true, "Workflow triggered")
  else (false, "Error: " ++ toString gh.respStatus)

/-- Model of `check_and_trigger_github` (app.py lines 129..154): the body of the
escalation thread after its `time.sleep(LOCAL_WAIT_SECONDS)`.  If the job
is gone, or is no longer `pending`, or `github_triggered` is already set,
nothing happens; otherwise the guard flag and `processor=github` are set,
the user is notified, GitHub is triggered, and the job ends `processing`
on trigger success and `failed` on trigger failure, with a second
notification either way. -/
def check_and_trigger_github (gh : GHEnv) (q : JobQueue) (job_id : String) :
    JobQueue × Effects :=
  match lookupJob q job_id with
  | none => (q, Effects.empty)
  | some job =>
    if job.status = "pending" ∧ job.github_triggered = false then
      let job1 := { job with github_triggered := true, processor := some "github" }
      let msg1 := (job1.chat_id, "💻 Local PC not available. Using cloud processing...")
      let res := trigger_github_action gh job1
      if res.1 = true then
        (setJob q job_id { job1 with status := "processing" },
         ⟨[msg1, (job1.chat_id, "☁️ Cloud processing started! Please wait 10-20 minutes.")],
          [job1]⟩)
      else
        (setJob q job_id { job1 with status := "failed" },
         ⟨[msg1, (job1.chat_id, "❌ Failed to start processing: " ++ res.2)], [job1]⟩)
    else (q, Effects.empty)

/-- Response of the claim endpoint (app.py lines 457..484): 404 for an
unknown job, 400 for a non-pending job, 200 with the updated job. -/
inductive ClaimResult where
  | notFound
  | conflict
  | claimed (job : Job)
deriving Repr, DecidableEq

/-- Model of `claim_job` (app.py lines 457..484): exclusive local claim.  Succeeds
only from `status == pending`; then sets `status=processing`,
`processor=local`, `claimed_at=now` and notifies the user. -/
def claim_job (q : JobQueue) (job_id : String) (now : Nat) :
    JobQueue × Effects × ClaimResult :=
  match lookupJob q job_id with
  | none => (q, Effects.empty, ClaimResult.notFound)
  | some job =>
    if job.status ≠ "pending" then (q, Effects.empty, ClaimResult.conflict)
    else
      let job1 := { job with
        status := "processing", processor := some "local", claimed_at := some now }
      (setJob q job_id job1,
       ⟨[(job1.chat_id,
          "🖥️ <b>Local PC connected!</b>\nProcessing on your computer (faster)...")], []⟩,
       ClaimResult.claimed job1)

/-- Response of the complete / fail / progress endpoints: 404 or 200. -/
inductive ApiResult where
  | notFound
  | ok
deriving Repr, DecidableEq

/-- Model of `complete_job` (app.py lines 487..500): unconditionally sets
`status=completed` and `completed_at` on any existing job. -/
def complete_job (q : JobQueue) (job_id : String) (now : Nat) :
    JobQueue × ApiResult :=
  match lookupJob q job_id with
  | none => (q, ApiResult.notFound)
  | some job =>
    (setJob q job_id { job with status := "completed", completed_at := some now },
     ApiResult.ok)

/-- Model of `fail_job` (app.py lines 503..537).  `error` and `fallback`
model the request body fields read by `data.get` — the error text
(default `Unknown error`) and the `fallback_to_github` flag (default
True).  When `fallback` is set and the
`github_triggered` guard is still clear — the field `processor_choice` is
not consulted — the job is flipped to `processing`/`github`, the user is
warned, and `trigger_github_action(job)` is called with its return value
discarded; otherwise the job is marked `failed`. -/
def fail_job (gh : GHEnv) (q : JobQueue) (job_id : String)
    (error : String) (fallback : Bool) : JobQueue × Effects × ApiResult :=
  match lookupJob q job_id with
  | none => (q, Effects.empty, ApiResult.notFound)
  | some job =>
    if fallback = true ∧ job.github_triggered = false then
      let job1 := { job with
        github_triggered := true, processor := some "github", status := "processing" }
      let _discarded := trigger_github_action gh job1
      (setJob q job_id job1,
       ⟨[(job1.chat_id,
          "⚠️ Local processing failed: " ++ error ++ "\n\n☁️ Falling back to cloud...")],
        [job1]⟩,
       ApiResult.ok)
    else
      (setJob q job_id { job with status := "failed" },
       ⟨[(job.chat_id, "❌ Processing failed: " ++ error)], []⟩,
       ApiResult.ok)

/-! ## Job creation and the conversation state machine -/

/-- Decimal digit character, `chr(48 + d)` for `d < 10`. -/
def digitChar (d : Nat) : Char := Char.ofNat (48 + d)

/-- Fuel-indexed decimal rendering of a natural number (least fuel needed
is the digit count, so `n + 1` always suffices). -/
def natDecimalAux : Nat → Nat → List Char
  | 0, _ => []
  | fuel + 1, n =>
    if n < 10 then [digitChar n]
    else natDecimalAux fuel (n / 10) ++ [digitChar (n % 10)]

/-- Decimal rendering of a natural number, modelling the Python `str(n)`
formatting and f-string interpolation of an integer. -/
def natDecimal (n : Nat) : String := String.mk (natDecimalAux (n + 1) n)

/-- Model of `generate_job_id` (app.py lines 78..80): the literal `job_`
followed by `int(time.time() * 1000)`, with the millisecond clock reading
passed in as `nowMs`. -/
def generate_job_id (nowMs : Nat) : String := "job_" ++ natDecimal nowMs

/-- Model of `create_job` (app.py lines 83..97): allocates the job dict in
the queue under the generated id and returns that id. -/
def create_job (q : JobQueue) (chat_id : Nat) (youtube_url : String)
    (num_clips clip_duration : Nat) (nowMs : Nat) : JobQueue × String :=
  let job_id := generate_job_id nowMs
  (setJob q job_id
    { job_id := job_id
      chat_id := natDecimal chat_id
      youtube_url := youtube_url
      num_clips := num_clips
      clip_duration := clip_duration
      status := "pending"
      created_at := nowMs
      processor := none
      github_triggered := false
      processor_choice := none
      claimed_at := none
      completed_at := none },
   job_id)

/-- One entry of the module-level dict `user_sessions`; the optional
fields model dict keys that are only present once assigned. -/
structure Session where
  state : String
  youtube_url : Option String := none
  num_clips : Option Nat := none
  clip_duration : Option Nat := none
deriving Repr, DecidableEq

/-- Model of the module-level dict `user_sessions` (chat_id -> session). -/
abbrev Sessions := List (Nat × Session)

def lookupSession : Sessions → Nat → Option Session
  | [], _ => none
  | (k, s) :: rest, id => if k = id then some s else lookupSession rest id

def setSession : Sessions → Nat → Session → Sessions
  | [], id, s => [(id, s)]
  | (k, s0) :: rest, id, s =>
    if k = id then (id, s) :: rest else (k, s0) :: setSession rest id s

/-- Model of the Python `str.isdigit` test on the inputs this bot sees:
nonempty and all characters decimal digits. -/
def pyIsdigit (s : String) : Bool := !s.isEmpty && s.toList.all Char.isDigit

/-- Model of Python `int(s)` on a string that passed `isdigit` (the only
context the source uses it in): the usual decimal value of the digits. -/
def pyInt (s : String) : Nat :=
  s.toList.foldl (fun n c => n * 10 + (c.toNat - 48)) 0

/-- Model of the `duration_map` dict lookup `duration_map.get(text.lower())`
(app.py lines 290..296). -/
def duration_map (t : String) : Option Nat :=
  if t = "30" ∨ t = "30 seconds" ∨ t = "30s" then some 30
  else if t = "45" ∨ t = "45 seconds" ∨ t = "45s" then some 45
  else if t = "60" ∨ t = "60 seconds" ∨ t = "60s" then some 60
  else none

/-- Test whether `sub` occurs as a contiguous sublist. -/
def listContains (sub : List Char) : List Char → Bool
  | [] => sub.isEmpty
  | c :: rest => sub.isPrefixOf (c :: rest) || listContains sub rest

/-- Model of the Python substring test `sub in s`. -/
def strContains (s sub : String) : Bool := listContains sub.toList s.toList

/-- Environment of one `handle_message` run: the URL recognizer and
extractor (the two regex helpers `is_youtube_url` and
`extract_youtube_url`, treated as opaque since no claim depends on the
regexes), the GitHub trigger environment, and the clock reading. -/
structure MsgEnv where
  isYT : String → Bool
  extractYT : String → Option String
  gh : GHEnv
  nowMs : Nat

/-- Result of one `handle_message` run: the updated stores, the collected
side effects, and — when the auto branch started the
`check_and_trigger_github` background thread — the job id that thread was
given. -/
structure HMResult where
  sessions : Sessions
  queue : JobQueue
  effects : Effects
  escalation : Option String
deriving Repr, DecidableEq

/-- Model of `handle_message` (app.py lines 157..406).  Display-only
message bodies (the long `/start`, `/help`, `/status` and
mode-confirmation texts) are condensed to their first line; every
`send_message` call site and all state mutations are kept one-to-one with
the source. -/
def handle_message (env : MsgEnv) (sessions : Sessions) (q : JobQueue)
    (chat_id : Nat) (user_name : String) (text : String) : HMResult :=
  -- session init: an unseen chat_id gets a fresh session in stage idle
  let session := (lookupSession sessions chat_id).getD { state := "idle" }
  let cid := natDecimal chat_id
  if text = "/start" then
    { sessions := setSession sessions chat_id { session with state := "idle" }
      queue := q
      effects := ⟨[(cid, "<b>Welcome " ++ user_name ++ "!</b> 🎬 I turn YouTube videos into TikTok-ready clips.")], []⟩
      escalation := none }
  else if text = "/help" then
    { sessions := setSession sessions chat_id session
      queue := q
      effects := ⟨[(cid, "<b>Help</b> Supported links: youtube.com/watch, youtu.be, youtube.com/shorts")], []⟩
      escalation := none }
  else if text = "/status" then
    let user_jobs := (q.map Prod.snd).filter (fun j => j.chat_id = cid)
    let active_jobs := user_jobs.filter (fun j => j.status = "pending" ∨ j.status = "processing")
    match active_jobs.getLast? with
    | some job =>
      let processor := (job.processor).getD "None"
      let status_emoji := if job.status = "pending" then "⏳" else "🔄"
      { sessions := setSession sessions chat_id session
        queue := q
        effects := ⟨[(cid, status_emoji ++ " Job Status — Status: " ++ job.status.toUpper
          ++ " Processor: " ++ processor ++ " URL: " ++ job.youtube_url.take 50
          ++ " Clips: " ++ natDecimal job.num_clips
          ++ " Duration: " ++ natDecimal job.clip_duration ++ "s")], []⟩
        escalation := none }
    | none =>
      { sessions := setSession sessions chat_id session
        queue := q
        effects := ⟨[(cid, "No active jobs. Send me a YouTube link!")], []⟩
        escalation := none }
  else
    let state := session.state
    if state = "idle" then
      if env.isYT text = true then
        { sessions := setSession sessions chat_id
            { session with youtube_url := env.extractYT text, state := "waiting_num_clips" }
          queue := q
          effects := ⟨[(cid, "✅ <b>Got it!</b>\n\nHow many clips do you want?")], []⟩
          escalation := none }
      else
        { sessions := setSession sessions chat_id session
          queue := q
          effects := ⟨[(cid, "Please send me a valid YouTube link.\n\nExample: https://youtube.com/watch?v=...")], []⟩
          escalation := none }
    else if state = "waiting_num_clips" then
      if pyIsdigit text = true ∧ 1 ≤ pyInt text ∧ pyInt text ≤ 5 then
        { sessions := setSession sessions chat_id
            { session with num_clips := some (pyInt text), state := "waiting_duration" }
          queue := q
          effects := ⟨[(cid, "<b>" ++ text ++ " clips</b> ✓\n\nMax duration per clip?")], []⟩
          escalation := none }
      else
        { sessions := setSession sessions chat_id session
          queue := q
          effects := ⟨[(cid, "Please choose a number between 1 and 5")], []⟩
          escalation := none }
    else if state = "waiting_duration" then
      match duration_map text.toLower with
      | some duration =>
        { sessions := setSession sessions chat_id
            { session with clip_duration := some duration, state := "waiting_processor" }
          queue := q
          effects := ⟨[(cid, "<b>" ++ natDecimal duration ++ "s per clip</b> ✓\n\nWhere to process?")], []⟩
          escalation := none }
      | none =>
        { sessions := setSession sessions chat_id session
          queue := q
          effects := ⟨[(cid, "Please choose: 30, 45, or 60 seconds")], []⟩
          escalation := none }
    else if state = "waiting_processor" then
      let processor_choice : Option String :=
        if strContains text.toLower "local" || strContains text "🖥️" then some "local"
        else if strContains text.toLower "cloud" || strContains text "☁️" then some "cloud"
        else if strContains text.toLower "auto" || strContains text "🔄" then some "auto"
        else none
      match processor_choice with
      | some choice =>
        let sessions1 := setSession sessions chat_id { session with state := "idle" }
        let cj := create_job q chat_id ((session.youtube_url).getD "")
          ((session.num_clips).getD 0) ((session.clip_duration).getD 0) env.nowMs
        let q1 := cj.1
        let job_id := cj.2
        -- the processor_choice key is assigned on the stored job; the
        -- `getD default` branch is unreachable: `create_job` just inserted `job_id`
        let job0 := { (lookupJob q1 job_id).getD default with processor_choice := some choice }
        let q2 := setJob q1 job_id job0
        if choice = "local" then
          { sessions := sessions1
            queue := q2
            effects := ⟨[(cid, "🖥️ Local Processing Selected! Waiting for your PC... Job ID: " ++ job_id)], []⟩
            escalation := none }
        else if choice = "cloud" then
          let jobC := { job0 with github_triggered := true, processor := some "github" }
          let q3 := setJob q2 job_id jobC
          let msg1 := (cid, "☁️ Cloud Processing Selected! Starting cloud processing... Job ID: " ++ job_id)
          let res := trigger_github_action env.gh jobC
          if res.1 = true then
            { sessions := sessions1
              queue := setJob q3 job_id { jobC with status := "processing" }
              effects := ⟨[msg1, (cid, "☁️ Cloud processing started!")], [jobC]⟩
              escalation := none }
          else
            { sessions := sessions1
              queue := setJob q3 job_id { jobC with status := "failed" }
              effects := ⟨[msg1, (cid, "❌ Failed to start: " ++ res.2)], [jobC]⟩
              escalation := none }
        else
          { sessions := sessions1
            queue := q2
            effects := ⟨[(cid, "🔄 Auto Mode Selected! Checking for local PC... Job ID: " ++ job_id)], []⟩
            escalation := some job_id }
      | none =>
        { sessions := setSession sessions chat_id session
          queue := q
          effects := ⟨[(cid, "Please choose: Local PC, Cloud, or Auto")], []⟩
          escalation := none }
    else
      { sessions := setSession sessions chat_id session
        queue := q
        effects := Effects.empty
        escalation := none }

/-- One inbound Telegram message with the keys `handle_message` reads. -/
structure TgMessage where
  chat_id : Nat
  first_name : String
  text : String

/-- Parsed webhook request body.  `nullBody` models a request whose JSON
body is `null`: `request.get_json()` returns `None` and the membership
test of the message key on `update` raises `TypeError` inside the `try`
block. -/
inductive WebhookBody where
  | nullBody
  | update (message : Option TgMessage)

/-- HTTP reply of the webhook endpoint: status code and the `ok` field of
the JSON payload. -/
structure WebhookReply where
  http_status : Nat
  ok : Bool
deriving Repr, DecidableEq

/-- Model of the `webhook` endpoint (app.py lines 428..438): on a
well-formed update it runs `handle_message` when a message is present and
answers 200 with ok True; an exception inside the `try` block (modelled
by `nullBody`) is caught by the `except` branch, which answers 500 with
ok False and the exception text. -/
def webhook (env : MsgEnv) (sessions : Sessions) (q : JobQueue)
    (body : WebhookBody) : HMResult × WebhookReply :=
  match body with
  | WebhookBody.nullBody =>
    (⟨sessions, q, Effects.empty, none⟩, ⟨500, false⟩)
  | WebhookBody.update none =>
    (⟨sessions, q, Effects.empty, none⟩, ⟨200, true⟩)
  | WebhookBody.update (some m) =>
    (handle_message env sessions q m.chat_id m.first_name m.text, ⟨200, true⟩)

/-! ## Sequences of operations on one job -/

/-- Run of a sequence of claim attempts on one job id, one clock reading
per attempt, collecting the per-attempt responses. -/
def claimSeq (q : JobQueue) (id : String) : List Nat → JobQueue × List ClaimResult
  | [] => (q, [])
  | t :: ts =>
    let c := claim_job q id t
    let rest := claimSeq c.1 id ts
    (rest.1, c.2.2 :: rest.2)

/-- One firing of either remote-dispatch code path on a job: the deferred
escalation task body, or a fail request with its body fields.  Each firing
carries its own trigger environment. -/
inductive CoordOp where
  | escalate (gh : GHEnv)
  | failOp (gh : GHEnv) (error : String) (fallback : Bool)

def runOp (q : JobQueue) (id : String) : CoordOp → JobQueue × Effects
  | CoordOp.escalate gh => check_and_trigger_github gh q id
  | CoordOp.failOp gh err fb =>
    let r := fail_job gh q id err fb
    (r.1, r.2.1)

/-- Run of an interleaving of escalation firings and fail calls on one
job, accumulating the side effects in order. -/
def runOps (q : JobQueue) (id : String) : List CoordOp → JobQueue × Effects
  | [] => (q, Effects.empty)
  | op :: ops =>
    let s := runOp q id op
    let rest := runOps s.1 id ops
    (rest.1, s.2.app rest.2)

/-- Current value of the `github_triggered` guard of a job (false when the
job is absent). -/
def flagOf (q : JobQueue) (id : String) : Bool :=
  match lookupJob q id with
  | some j => j.github_triggered
  | none => false

/-! ## Registry lemmas -/

theorem lookupJob_setJob_self (q : JobQueue) (id : String) (j : Job) :
    lookupJob (setJob q id j) id = some j := by
  induction q with
  | nil => simp [setJob, lookupJob]
  | cons p rest ih =>
    obtain ⟨k, j0⟩ := p
    by_cases h : k = id <;> simp [setJob, lookupJob, h, ih]

theorem flagOf_setJob_self (q : JobQueue) (id : String) (j : Job) :
    flagOf (setJob q id j) id = j.github_triggered := by
  simp [flagOf, lookupJob_setJob_self]

/-- Claims on a job that is not `pending` all answer `conflict` and leave
the queue untouched, whatever the sequence of attempts. -/
theorem claimSeq_conflict (id : String) (j : Job) (hs : ¬ j.status = "pending") :
    ∀ (ts : List Nat) (q : JobQueue), lookupJob q id = some j →
      claimSeq q id ts = (q, List.replicate ts.length ClaimResult.conflict) := by
  intro ts
  induction ts with
  | nil => intro q _; simp [claimSeq]
  | cons t ts ih =>
    intro q hq
    have h1 := ih q hq
    simp [claimSeq, claim_job, hq, hs, h1, List.replicate_succ]

/-! ## Step lemmas for the idempotency guard -/

theorem runOp_flag_true (q : JobQueue) (id : String) (op : CoordOp)
    (h : flagOf q id = true) :
    (runOp q id op).2.dispatches = [] ∧ flagOf (runOp q id op).1 id = true := by
  cases hq : lookupJob q id with
  | none => simp [flagOf, hq] at h
  | some j =>
    have hj : j.github_triggered = true := by simpa [flagOf, hq] using h
    cases op with
    | escalate gh =>
      simp [runOp, check_and_trigger_github, hq, hj, flagOf, Effects.empty]
    | failOp gh err fb =>
      simp [runOp, fail_job, hq, hj, flagOf_setJob_self]

theorem runOps_flag_true (id : String) :
    ∀ (ops : List CoordOp) (q : JobQueue), flagOf q id = true →
      (runOps q id ops).2.dispatches = [] ∧ flagOf (runOps q id ops).1 id = true := by
  intro ops
  induction ops with
  | nil => intro q h; simpa [runOps, Effects.empty] using h
  | cons op ops ih =>
    intro q h
    have h1 := runOp_flag_true q id op h
    have h2 := ih (runOp q id op).1 h1.2
    simp [runOps, Effects.app, h1.1, h2.1, h2.2]

theorem runOp_flag_false (q : JobQueue) (id : String) (op : CoordOp)
    (h : flagOf q id = false) :
    (runOp q id op).2.dispatches.length ≤ 1 ∧
    (flagOf (runOp q id op).1 id = false → (runOp q id op).2.dispatches = []) := by
  cases hq : lookupJob q id with
  | none =>
    cases op with
    | escalate gh => simp [runOp, check_and_trigger_github, hq, Effects.empty]
    | failOp gh err fb => simp [runOp, fail_job, hq, Effects.empty]
  | some j =>
    have hj : j.github_triggered = false := by simpa [flagOf, hq] using h
    cases op with
    | escalate gh =>
      by_cases hp : j.status = "pending"
      · simp only [runOp, check_and_trigger_github, hq]
        rw [if_pos ⟨hp, hj⟩]
        refine ⟨?_, ?_⟩ <;> split <;> simp [flagOf_setJob_self]
      · simp [runOp, check_and_trigger_github, hq, hj, hp, Effects.empty]
    | failOp gh err fb =>
      by_cases hfb : fb = true
      · simp [runOp, fail_job, hq, hj, hfb, flagOf_setJob_self]
      · simp [runOp, fail_job, hq, hj, hfb, flagOf_setJob_self]

theorem runOps_dispatch_le (id : String) :
    ∀ (ops : List CoordOp) (q : JobQueue), flagOf q id = false →
      (runOps q id ops).2.dispatches.length ≤ 1 := by
  intro ops
  induction ops with
  | nil => intro q _; simp [runOps, Effects.empty]
  | cons op ops ih =>
    intro q h
    by_cases hf : flagOf (runOp q id op).1 id = false
    · have h0 := (runOp_flag_false q id op h).2 hf
      have h1 := ih (runOp q id op).1 hf
      simp [runOps, Effects.app, h0, h1]
    · have hf' : flagOf (runOp q id op).1 id = true := by
        cases hx : flagOf (runOp q id op).1 id
        · exact absurd hx hf
        · rfl
      have h0 := (runOp_flag_false q id op h).1
      have h1 := (runOps_flag_true id ops (runOp q id op).1 hf').1
      simp [runOps, Effects.app, h1]
      omega

theorem runOps_append_queue (id : String) :
    ∀ (l₁ l₂ : List CoordOp) (q : JobQueue),
      (runOps q id (l₁ ++ l₂)).1 = (runOps (runOps q id l₁).1 id l₂).1 := by
  intro l₁
  induction l₁ with
  | nil => intro l₂ q; simp [runOps]
  | cons op l₁ ih => intro l₂ q; simp [runOps, ih]

/-! ## Decimal rendering lemmas -/

/-- Left inverse of the decimal rendering: read the digit characters back. -/
def decListToNat (l : List Char) : Nat :=
  l.foldl (fun n c => n * 10 + (c.toNat - 48)) 0

theorem digitChar_toNat (d : Nat) (h : d < 10) : (digitChar d).toNat = 48 + d := by
  interval_cases d <;> rfl

theorem natDecimalAux_roundtrip :
    ∀ (fuel n : Nat), n < fuel → decListToNat (natDecimalAux fuel n) = n := by
  intro fuel
  induction fuel with
  | zero => intro n h; omega
  | succ fuel ih =>
    intro n h
    by_cases h10 : n < 10
    · simp [natDecimalAux, h10, decListToNat, digitChar_toNat n h10]
    · have hdiv : n / 10 < fuel := by
        have hlt : n / 10 < n := Nat.div_lt_self (by omega) (by omega)
        omega
      have hmod : n % 10 < 10 := Nat.mod_lt _ (by omega)
      have hrec := ih (n / 10) hdiv
      simp only [natDecimalAux, h10, if_false, decListToNat, List.foldl_append,
        List.foldl_cons, List.foldl_nil] at *
      rw [hrec, digitChar_toNat _ hmod]
      omega

theorem natDecimal_inj {n m : Nat} (h : natDecimal n = natDecimal m) : n = m := by
  have hd : natDecimalAux (n + 1) n = natDecimalAux (m + 1) m :=
    congrArg String.data h
  have h1 := natDecimalAux_roundtrip (n + 1) n (by omega)
  have h2 := natDecimalAux_roundtrip (m + 1) m (by omega)
  rw [← h1, ← h2, hd]

theorem generate_job_id_inj {n m : Nat}
    (h : generate_job_id n = generate_job_id m) : n = m := by
  apply natDecimal_inj
  have hd' : "job_".data ++ (natDecimal n).data =
      "job_".data ++ (natDecimal m).data := congrArg String.data h
  have hcancel : (natDecimal n).data = (natDecimal m).data :=
    List.append_cancel_left hd'
  cases hN : natDecimal n with
  | mk ln =>
    cases hM : natDecimal m with
    | mk lm =>
      rw [hN, hM] at hcancel
      exact congrArg String.mk hcancel

/-! ## Concrete fixtures used by witnesses and counterexamples -/

/-- Fixture: a freshly created pending auto-mode job. -/
def exPendingJob : Job :=
  { job_id := "job_1000", chat_id := "7", youtube_url := "https://youtu.be/abc",
    num_clips := 2, clip_duration := 45, status := "pending", created_at := 1000,
    processor := none, github_triggered := false, processor_choice := some "auto",
    claimed_at := none, completed_at := none }

/-- Fixture: queue holding just the pending job. -/
def exQueue : JobQueue := [("job_1000", exPendingJob)]

/-- Fixture: a job that already failed. -/
def exFailedJob : Job :=
  { exPendingJob with job_id := "job_2000", status := "failed" }

/-- Fixture: queue holding just the failed job. -/
def exFailedQueue : JobQueue := [("job_2000", exFailedJob)]

/-! ## Claim theorems -/

/-- C1: a claim on a pending job succeeds and atomically sets
`status=processing`, `processor=local` and `claimed_at`; a claim on a
non-pending job answers `conflict` and leaves the queue untouched; a claim
on an unknown job answers `notFound`, a signal distinct from `conflict`;
hence in any sequence of claim attempts on one pending job exactly the
first succeeds and every later one gets `conflict`. -/
theorem claim_pending_exclusive (q : JobQueue) (id : String) (j : Job)
    (hj : lookupJob q id = some j) (hp : j.status = "pending")
    (now : Nat) (ts : List Nat) :
    claim_job q id now =
      (setJob q id
         { j with status := "processing", processor := some "local", claimed_at := some now },
       ⟨[(j.chat_id,
          "🖥️ <b>Local PC connected!</b>\nProcessing on your computer (faster)...")], []⟩,
       ClaimResult.claimed
         { j with status := "processing", processor := some "local", claimed_at := some now }) ∧
    (claimSeq q id (now :: ts)).2 =
      ClaimResult.claimed
          { j with status := "processing", processor := some "local", claimed_at := some now }
        :: List.replicate ts.length ClaimResult.conflict ∧
    (∀ (q' : JobQueue) (id' : String), lookupJob q' id' = none →
      ∀ t, (claim_job q' id' t).2.2 = ClaimResult.notFound) ∧
    (∀ (q' : JobQueue) (id' : String) (j' : Job), lookupJob q' id' = some j' →
      ¬ j'.status = "pending" →
      ∀ t, (claim_job q' id' t).2.2 = ClaimResult.conflict ∧ (claim_job q' id' t).1 = q') ∧
    ClaimResult.notFound ≠ ClaimResult.conflict := by
  refine ⟨?_, ?_, ?_, ?_, by simp⟩
  · simp [claim_job, hj, hp]
  · have hrest := claimSeq_conflict id
      { j with status := "processing", processor := some "local", claimed_at := some now }
      (by simp) ts
      (setJob q id
        { j with status := "processing", processor := some "local", claimed_at := some now })
      (lookupJob_setJob_self q id _)
    simp [claimSeq, claim_job, hj, hp, hrest]
  · intro q' id' h t
    simp [claim_job, h]
  · intro q' id' j' h hs t
    simp [claim_job, h, hs]

/-- Witness for C1: a concrete pending job and three claim attempts. -/
theorem claim_pending_exclusive_witness :
    (claimSeq exQueue "job_1000" (5 :: [6, 7])).2 =
      ClaimResult.claimed
          { exPendingJob with
              status := "processing", processor := some "local", claimed_at := some 5 }
        :: List.replicate 2 ClaimResult.conflict :=
  (claim_pending_exclusive exQueue "job_1000" exPendingJob rfl rfl 5 [6, 7]).2.1

/-- C2: across any interleaving of escalation-timer firings and fail calls
on one job whose `github_triggered` guard starts clear, at most one remote
dispatch call is performed, and the guard flips false-to-true at most once
(whenever it is true after a prefix of the interleaving it is still true
at the end). -/
theorem remote_dispatch_at_most_once (q : JobQueue) (id : String) (j : Job)
    (hj : lookupJob q id = some j) (hf : j.github_triggered = false)
    (ops : List CoordOp) :
    (runOps q id ops).2.dispatches.length ≤ 1 ∧
    (∀ l₁ l₂, ops = l₁ ++ l₂ →
      flagOf (runOps q id l₁).1 id = true → flagOf (runOps q id ops).1 id = true) := by
  have h0 : flagOf q id = false := by simp [flagOf, hj, hf]
  refine ⟨runOps_dispatch_le id ops q h0, ?_⟩
  intro l₁ l₂ hsplit hflag
  subst hsplit
  rw [runOps_append_queue]
  exact (runOps_flag_true id l₂ _ hflag).2

/-- Witness for C2: an escalation firing followed by a fallback fail call
on a concrete pending job dispatch at most once. -/
theorem remote_dispatch_at_most_once_witness :
    (runOps exQueue "job_1000"
      [CoordOp.escalate ⟨true, 204⟩,
       CoordOp.failOp ⟨true, 204⟩ "boom" true]).2.dispatches.length ≤ 1 :=
  (remote_dispatch_at_most_once exQueue "job_1000" exPendingJob rfl rfl _).1

/-- C6 counterexample: `complete_job` on a job whose status is already the
terminal `failed` is not a no-op — it overwrites the status with
`completed`. -/
theorem complete_on_failed_not_noop :
    exFailedJob.status = "failed" ∧
    (lookupJob (complete_job exFailedQueue "job_2000" 99).1 "job_2000").map Job.status =
      some "completed" :=
  ⟨rfl, rfl⟩

/-- C6 (amended): `complete_job` unconditionally sets `status=completed`
and `completed_at` on every existing job, terminal or not (there is no
already-terminal check), and answers `notFound` on an unknown job. -/
theorem complete_job_unconditional (q : JobQueue) (id : String) (now : Nat) :
    (∀ j, lookupJob q id = some j →
      complete_job q id now =
        (setJob q id { j with status := "completed", completed_at := some now },
         ApiResult.ok)) ∧
    (lookupJob q id = none → complete_job q id now = (q, ApiResult.notFound)) := by
  constructor
  · intro j hj
    simp [complete_job, hj]
  · intro h
    simp [complete_job, h]

/-- Witness for C6 (amended) at the concrete failed job. -/
theorem complete_job_unconditional_witness :
    complete_job exFailedQueue "job_2000" 99 =
      (setJob exFailedQueue "job_2000"
        { exFailedJob with status := "completed", completed_at := some 99 },
       ApiResult.ok) :=
  (complete_job_unconditional exFailedQueue "job_2000" 99).1 exFailedJob rfl

/-- C8 counterexample: two consecutive creates within the same millisecond
produce the same job_id; the second create overwrites the first job, so
the queue holds one entry whose URL is the second request. -/
theorem create_job_same_millisecond_collision :
    (create_job [] 7 "https://youtu.be/a" 2 45 1000).2 =
      (create_job (create_job [] 7 "https://youtu.be/a" 2 45 1000).1 7
        "https://youtu.be/b" 3 60 1000).2 ∧
    (create_job (create_job [] 7 "https://youtu.be/a" 2 45 1000).1 7
        "https://youtu.be/b" 3 60 1000).1.length = 1 ∧
    (lookupJob (create_job (create_job [] 7 "https://youtu.be/a" 2 45 1000).1 7
        "https://youtu.be/b" 3 60 1000).1
      (create_job [] 7 "https://youtu.be/a" 2 45 1000).2).map Job.youtube_url =
      some "https://youtu.be/b" :=
  ⟨rfl, rfl, rfl⟩

/-- C8 (amended): every create allocates its job in `pending` with
`processor` unassigned and `github_triggered=false`, under the id
`"job_" ++ <millisecond timestamp>`; ids of creates at distinct
millisecond timestamps are distinct, but creates within the same
millisecond reuse the id and overwrite (see the counterexample). -/
theorem create_job_spec (q : JobQueue) (chat : Nat) (url : String)
    (n d nowMs : Nat) :
    (create_job q chat url n d nowMs).2 = generate_job_id nowMs ∧
    lookupJob (create_job q chat url n d nowMs).1 (generate_job_id nowMs) =
      some { job_id := generate_job_id nowMs, chat_id := natDecimal chat,
             youtube_url := url, num_clips := n, clip_duration := d,
             status := "pending", created_at := nowMs, processor := none,
             github_triggered := false, processor_choice := none,
             claimed_at := none, completed_at := none } ∧
    ∀ m1 m2 : Nat, ¬ m1 = m2 → ¬ generate_job_id m1 = generate_job_id m2 := by
  refine ⟨rfl, ?_, ?_⟩
  · simp [create_job, lookupJob_setJob_self]
  · intro m1 m2 hne h
    exact hne (generate_job_id_inj h)

/-- Witness for C8 (amended) at concrete timestamps. -/
theorem create_job_spec_witness :
    (create_job [] 7 "https://youtu.be/c" 2 45 2000).2 = generate_job_id 2000 ∧
    ¬ generate_job_id 1000 = generate_job_id 2000 :=
  ⟨(create_job_spec [] 7 "https://youtu.be/c" 2 45 2000).1,
   (create_job_spec [] 7 "https://youtu.be/c" 2 45 2000).2.2 1000 2000 (by decide)⟩

/-- Fixture: a local-only job (user chose local processing; comment at
app.py line 354 reads, No GitHub fallback for local-only) currently being
processed by the local worker, guard still clear. -/
def exLocalOnlyJob : Job :=
  { job_id := "job_3000", chat_id := "8", youtube_url := "https://youtu.be/xyz",
    num_clips := 1, clip_duration := 30, status := "processing", created_at := 3000,
    processor := some "local", github_triggered := false,
    processor_choice := some "local", claimed_at := some 3001, completed_at := none }

/-- Fixture: queue holding just the local-only job. -/
def exLocalOnlyQueue : JobQueue := [("job_3000", exLocalOnlyJob)]

/-- Fixture: an opaque message environment for closed webhook runs. -/
def exEnv : MsgEnv :=
  { isYT := fun _ => false, extractYT := fun _ => none, gh := ⟨false, 0⟩, nowMs := 0 }

/-- C3 code evaluation: a fail call with `allow_fallback=true` on a
local-only job whose guard is clear puts the job in
`processing`/`github` and performs a GitHub dispatch — `fail_job` never
consults `processor_choice` — where the claim requires `status=failed`
for local-only mode. -/
theorem fail_local_only_still_falls_back :
    exLocalOnlyJob.processor_choice = some "local" ∧
    exLocalOnlyJob.github_triggered = false ∧
    (lookupJob (fail_job ⟨true, 204⟩ exLocalOnlyQueue "job_3000" "boom" true).1
        "job_3000").map Job.status = some "processing" ∧
    (lookupJob (fail_job ⟨true, 204⟩ exLocalOnlyQueue "job_3000" "boom" true).1
        "job_3000").map Job.processor = some (some "github") ∧
    (fail_job ⟨true, 204⟩ exLocalOnlyQueue "job_3000" "boom" true).2.1.dispatches.length = 1 :=
  ⟨rfl, rfl, rfl, rfl, rfl⟩

/-- C4 code evaluation: one fail call with fallback on a local-only job
flips `github_triggered` to true, violating the claimed invariant that a
local-only job never has the flag set. -/
theorem fail_local_only_sets_remote_triggered :
    exLocalOnlyJob.processor_choice = some "local" ∧
    exLocalOnlyJob.github_triggered = false ∧
    (lookupJob (fail_job ⟨true, 204⟩ exLocalOnlyQueue "job_3000" "oops" true).1
        "job_3000").map Job.github_triggered = some true :=
  ⟨rfl, rfl, rfl⟩

/-- C5: when the escalation task fires on a job that is still pending with
the guard clear, it sets the guard and `processor=github`, dispatches,
and leaves the job `processing` on trigger success and `failed` on trigger
failure, notifying the user either way; when the job is no longer pending,
or no longer exists, it performs no dispatch and changes nothing. -/
theorem escalation_task_spec (gh : GHEnv) (q : JobQueue) (id : String) (j : Job)
    (hj : lookupJob q id = some j) (hp : j.status = "pending")
    (hf : j.github_triggered = false) :
    (gh.configured = true → gh.respStatus = 204 →
      check_and_trigger_github gh q id =
        (setJob q id
           { j with github_triggered := true, processor := some "github",
                    status := "processing" },
         ⟨[(j.chat_id, "💻 Local PC not available. Using cloud processing..."),
           (j.chat_id, "☁️ Cloud processing started! Please wait 10-20 minutes.")],
          [{ j with github_triggered := true, processor := some "github" }]⟩)) ∧
    (¬ (gh.configured = true ∧ gh.respStatus = 204) →
      check_and_trigger_github gh q id =
        (setJob q id
           { j with github_triggered := true, processor := some "github",
                    status := "failed" },
         ⟨[(j.chat_id, "💻 Local PC not available. Using cloud processing..."),
           (j.chat_id, "❌ Failed to start processing: " ++
             (trigger_github_action gh
               { j with github_triggered := true, processor := some "github" }).2)],
          [{ j with github_triggered := true, processor := some "github" }]⟩)) ∧
    (∀ (q' : JobQueue) (j' : Job), lookupJob q' id = some j' →
      ¬ j'.status = "pending" → check_and_trigger_github gh q' id = (q', Effects.empty)) ∧
    (∀ q' : JobQueue, lookupJob q' id = none →
      check_and_trigger_github gh q' id = (q', Effects.empty)) := by
  refine ⟨?_, ?_, ?_, ?_⟩
  · intro hc hr
    simp [check_and_trigger_github, hj, hp, hf, trigger_github_action, hc, hr]
  · intro hnot
    have hfalse : ∀ jx : Job, (trigger_github_action gh jx).1 = false := by
      intro jx
      by_cases hc : gh.configured = true
      · have hr : ¬ gh.respStatus = 204 := fun hr => hnot ⟨hc, hr⟩
        simp [trigger_github_action, hc, hr]
      · simp only [Bool.not_eq_true] at hc
        simp [trigger_github_action, hc]
    simp [check_and_trigger_github, hj, hp, hf, hfalse]
  · intro q' j' h hs
    simp [check_and_trigger_github, h, hs]
  · intro q' h
    simp [check_and_trigger_github, h]

/-- Witness for C5: the escalation task fires on the concrete pending job
with a healthy trigger environment. -/
theorem escalation_task_spec_witness :
    check_and_trigger_github ⟨true, 204⟩ exQueue "job_1000" =
      (setJob exQueue "job_1000"
        { exPendingJob with github_triggered := true, processor := some "github",
                            status := "processing" },
       ⟨[("7", "💻 Local PC not available. Using cloud processing..."),
         ("7", "☁️ Cloud processing started! Please wait 10-20 minutes.")],
        [{ exPendingJob with github_triggered := true, processor := some "github" }]⟩) :=
  (escalation_task_spec ⟨true, 204⟩ exQueue "job_1000" exPendingJob rfl rfl rfl).1 rfl rfl

/-- C7 counterexample: the inbound event whose JSON body is null makes the
handler raise inside the `try` block; the webhook answers HTTP 500 with
`ok=false` — an error surfaced to the chat platform, not a success
response. -/
theorem webhook_exception_returns_500 :
    (webhook exEnv [] [] WebhookBody.nullBody).2.http_status = 500 ∧
    (webhook exEnv [] [] WebhookBody.nullBody).2.ok = false :=
  ⟨rfl, rfl⟩

/-- C7 (amended): internal exceptions during webhook handling are caught
(the endpoint always produces a reply) but are answered with an HTTP 500
error reply carrying the exception text, not with a success
acknowledgement; events handled without an exception are answered 200 with
`ok=true` whatever the stores and environment. -/
theorem webhook_reply_spec (env : MsgEnv) (sessions : Sessions) (q : JobQueue) :
    (∀ m : Option TgMessage,
      (webhook env sessions q (WebhookBody.update m)).2 = ⟨200, true⟩) ∧
    (webhook env sessions q WebhookBody.nullBody).2 = ⟨500, false⟩ := by
  constructor
  · intro m
    cases m <;> rfl
  · rfl

/-- C9: for every session in stage `waiting_num_clips`, the message `"3"`
(inside the 1..5 bound) advances the stage to `waiting_duration` storing
`num_clips=3`, while the message `"9"` (outside the bound) leaves the
stage and the accumulated draft untouched and answers a corrective
prompt. -/
theorem clip_count_intake (env : MsgEnv) (sessions : Sessions) (q : JobQueue)
    (chat_id : Nat) (user_name : String) (s : Session)
    (hs : lookupSession sessions chat_id = some s)
    (hstage : s.state = "waiting_num_clips") :
    handle_message env sessions q chat_id user_name "3" =
      { sessions := setSession sessions chat_id
          { s with num_clips := some 3, state := "waiting_duration" }
        queue := q
        effects := ⟨[(natDecimal chat_id, "<b>3 clips</b> ✓\n\nMax duration per clip?")], []⟩
        escalation := none } ∧
    handle_message env sessions q chat_id user_name "9" =
      { sessions := setSession sessions chat_id s
        queue := q
        effects := ⟨[(natDecimal chat_id, "Please choose a number between 1 and 5")], []⟩
        escalation := none } := by
  have h3d : pyIsdigit "3" = true := rfl
  have h3v : pyInt "3" = 3 := rfl
  have h9d : pyIsdigit "9" = true := rfl
  have h9v : pyInt "9" = 9 := rfl
  constructor
  · simp [handle_message, hs, hstage, h3d, h3v]
  · simp [handle_message, hs, hstage, h9d, h9v]

/-- Fixture: a session waiting for the clip count. -/
def exSessionWaiting : Session :=
  { state := "waiting_num_clips", youtube_url := some "https://youtu.be/abc" }

/-- Fixture: the same session after the count 3 was accepted. -/
def exSessionAfter : Session :=
  { state := "waiting_duration", youtube_url := some "https://youtu.be/abc",
    num_clips := some 3 }

/-- Witness for C9 at a concrete session. -/
theorem clip_count_intake_witness :
    handle_message exEnv [(7, exSessionWaiting)] [] 7 "Sam" "3" =
      { sessions := [(7, exSessionAfter)]
        queue := []
        effects := ⟨[("7", "<b>3 clips</b> ✓\n\nMax duration per clip?")], []⟩
        escalation := none } :=
  (clip_count_intake exEnv [(7, exSessionWaiting)] [] 7 "Sam" exSessionWaiting
    rfl rfl).1

/-- C10: the fallback branch of fail updates the job to
`processing`/`github` before the dispatch call — the job record handed to
the trigger already carries `status=processing` — and discards the
trigger result: the resulting queue, messages and reply are identical for
every trigger environment, with no transition to `failed` and no failure
notification even when the dispatch call fails. -/
theorem fail_fallback_discards_trigger_result (gh gh' : GHEnv) (q : JobQueue)
    (id : String) (j : Job) (hj : lookupJob q id = some j)
    (hf : j.github_triggered = false) (err : String) :
    fail_job gh q id err true =
      (setJob q id
         { j with github_triggered := true, processor := some "github",
                  status := "processing" },
       ⟨[(j.chat_id, "⚠️ Local processing failed: " ++ err ++
           "\n\n☁️ Falling back to cloud...")],
        [{ j with github_triggered := true, processor := some "github",
                  status := "processing" }]⟩,
       ApiResult.ok) ∧
    fail_job gh q id err true = fail_job gh' q id err true := by
  constructor
  · simp [fail_job, hj, hf]
  · simp [fail_job, hj, hf]

/-- Witness for C10: even with an unconfigured trigger environment the
concrete job ends in `processing`/`github` with only the fallback
warning sent. -/
theorem fail_fallback_discards_trigger_result_witness :
    fail_job ⟨false, 0⟩ exQueue "job_1000" "cuda out of memory" true =
      (setJob exQueue "job_1000"
        { exPendingJob with github_triggered := true, processor := some "github",
                            status := "processing" },
       ⟨[("7", "⚠️ Local processing failed: cuda out of memory\n\n☁️ Falling back to cloud...")],
        [{ exPendingJob with github_triggered := true, processor := some "github",
                             status := "processing" }]⟩,
       ApiResult.ok) :=
  (fail_fallback_discards_trigger_result ⟨false, 0⟩ ⟨true, 204⟩ exQueue "job_1000"
    exPendingJob rfl rfl "cuda out of memory").1

end TikTokBot
